import Mathlib

/-
Verification of MandelbrotGL (src/src/main.cpp) against its natural-language
specification.  The C++ program is shallowly embedded: the move-only GPU
handle wrapper `GLobject` is modelled as a record together with explicit
functions for its special member functions, each returning the release
events (deleter label, handle id) the corresponding C++ operation emits;
the resource factories are modelled as functions from an allocation
environment (the results the OpenGL calls would return) to an
`Except String` result paired with the list of release events; the view
state mutated by the event loop uses exact rational arithmetic for the
C `float` fields and natural numbers mod 2^32 for the C `unsigned` field.
-/

namespace MandelbrotGL

/-- Window width constant (main.cpp line 15). -/
def WINDOW_WIDTH : Nat := 800

/-- Window height constant (main.cpp line 16). -/
def WINDOW_HEIGHT : Nat := 600

/-- Labels for the four deleter lambdas bound into `GLobject`s by the
factory functions (glDeleteBuffers, glDeleteVertexArrays, glDeleteShader,
glDeleteProgram). -/
inductive Deleter where
  | deleteBuffers
  | deleteVertexArrays
  | deleteShader
  | deleteProgram
deriving DecidableEq

/-- A release event: the C++ destructor body `deleter(index)` invoking the
stored deleter on the stored handle id. -/
abbrev ReleaseEvent := Deleter × Nat

/-- The move-only GPU handle wrapper (main.cpp lines 18-49): a raw GLuint
handle `index` together with the bound release function, modelled by its
label. -/
structure GLobject where
  index : Nat
  deleter : Deleter
deriving DecidableEq

/-- Move constructor (main.cpp lines 30-33): the new object takes the
source's index and deleter; the source's index is set to 0.  Returns
(constructed object, moved-from source). -/
def GLobject.moveCtor (src : GLobject) : GLobject × GLobject :=
  (⟨src.index, src.deleter⟩, ⟨0, src.deleter⟩)

/-- Move assignment `a = std::move(b)` for distinct objects
(main.cpp lines 38-46): `a` takes `b`'s index and deleter.  The source `b`
is returned unchanged: the C++ code does not zero `globject.index`.  No
release event is emitted: the old `a.index` is simply overwritten.
(The `this == &globject` self-assignment branch returns `*this` unchanged
and is not representable in a value model; all uses below are on distinct
objects.) -/
def GLobject.moveAssign (a b : GLobject) : GLobject × GLobject :=
  (⟨b.index, b.deleter⟩, b)

/-- Destructor (main.cpp line 34): unconditionally invokes `deleter(index)`,
emitting one release event. -/
def GLobject.destroy (o : GLobject) : List ReleaseEvent :=
  [(o.deleter, o.index)]

/-- Number of release events in a trace that pass the handle id `i` to a
deleter. -/
def releasesOf (i : Nat) (tr : List ReleaseEvent) : Nat :=
  (tr.filter (fun e => e.2 == i)).length

/-- The exactly-once contract holds on the move-construction path: for a
handle with a nonzero id, the release function receives the owned id
exactly once — once on destruction for a handle never moved from, and, for
a handle moved out of by the move constructor, exactly once across the
destruction of both objects, the moved-from handle passing only the null
id 0.  (The move-assignment path breaks the contract; see below.) -/
theorem globject_release_exactly_once (i : Nat) (d : Deleter) (h : i ≠ 0) :
    releasesOf i (GLobject.destroy ⟨i, d⟩) = 1 ∧
    releasesOf i ((GLobject.moveCtor ⟨i, d⟩).1.destroy ++
                  (GLobject.moveCtor ⟨i, d⟩).2.destroy) = 1 ∧
    releasesOf i ((GLobject.moveCtor ⟨i, d⟩).2.destroy) = 0 := by
  have h0 : ¬((0 : Nat) == i) = true := by
    simp [Ne.symm h]
  refine ⟨?_, ?_, ?_⟩ <;>
    simp [releasesOf, GLobject.destroy, GLobject.moveCtor, List.filter, h0]

/-- Witness for C1 at a concrete handle. -/
theorem globject_release_exactly_once_witness :
    releasesOf 7 (GLobject.destroy ⟨7, Deleter.deleteBuffers⟩) = 1 ∧
    releasesOf 7 ((GLobject.moveCtor ⟨7, Deleter.deleteBuffers⟩).1.destroy ++
                  (GLobject.moveCtor ⟨7, Deleter.deleteBuffers⟩).2.destroy) = 1 ∧
    releasesOf 7 ((GLobject.moveCtor ⟨7, Deleter.deleteBuffers⟩).2.destroy) = 0 :=
  globject_release_exactly_once 7 Deleter.deleteBuffers (by decide)

/-- Claim C1 evaluated at the failing input: after `a = std::move(b)` with
`a` owning id 1 and `b` owning id 2, the moved-from handle `b` is not
inert — destroying both objects passes the transferred id 2 to the release
function twice, so the release function is not invoked exactly once across
the lifetime of the handle owning id 2, contrary to the claim (and id 1 is
never released at all: it leaks). -/
theorem globject_exactly_once_violated_by_move_assign :
    releasesOf 2
      ((GLobject.moveAssign ⟨1, Deleter.deleteShader⟩
          ⟨2, Deleter.deleteShader⟩).1.destroy ++
       (GLobject.moveAssign ⟨1, Deleter.deleteShader⟩
          ⟨2, Deleter.deleteShader⟩).2.destroy) = 2 ∧
    releasesOf 1
      ((GLobject.moveAssign ⟨1, Deleter.deleteShader⟩
          ⟨2, Deleter.deleteShader⟩).1.destroy ++
       (GLobject.moveAssign ⟨1, Deleter.deleteShader⟩
          ⟨2, Deleter.deleteShader⟩).2.destroy) = 0 := by
  decide

/-- Claim C2: after move-assignment `a = std::move(b)` between distinct live
handles, no release event ever carries `a`'s previous id (it is leaked, not
released), `b`'s id field is left unchanged rather than zeroed, and the
destruction of both objects passes the transferred id to the deleter twice
(a double release). -/
theorem globject_move_assign_double_release (a b : GLobject)
    (h : a.index ≠ b.index) :
    releasesOf a.index ((GLobject.moveAssign a b).1.destroy ++
                        (GLobject.moveAssign a b).2.destroy) = 0 ∧
    (GLobject.moveAssign a b).2.index = b.index ∧
    releasesOf b.index ((GLobject.moveAssign a b).1.destroy ++
                        (GLobject.moveAssign a b).2.destroy) = 2 := by
  have hb : ¬(b.index == a.index) = true := by
    simp [Ne.symm h]
  refine ⟨?_, rfl, ?_⟩ <;>
    simp [releasesOf, GLobject.destroy, GLobject.moveAssign, List.filter, hb]

/-- Witness for C2 at concrete handles. -/
theorem globject_move_assign_double_release_witness :
    releasesOf 1 ((GLobject.moveAssign ⟨1, Deleter.deleteBuffers⟩
                    ⟨2, Deleter.deleteBuffers⟩).1.destroy ++
                  (GLobject.moveAssign ⟨1, Deleter.deleteBuffers⟩
                    ⟨2, Deleter.deleteBuffers⟩).2.destroy) = 0 ∧
    (GLobject.moveAssign ⟨1, Deleter.deleteBuffers⟩
      ⟨2, Deleter.deleteBuffers⟩).2.index = 2 ∧
    releasesOf 2 ((GLobject.moveAssign ⟨1, Deleter.deleteBuffers⟩
                    ⟨2, Deleter.deleteBuffers⟩).1.destroy ++
                  (GLobject.moveAssign ⟨1, Deleter.deleteBuffers⟩
                    ⟨2, Deleter.deleteBuffers⟩).2.destroy) = 2 :=
  globject_move_assign_double_release ⟨1, Deleter.deleteBuffers⟩
    ⟨2, Deleter.deleteBuffers⟩ (by decide)

/-- Results the OpenGL allocation and status-query calls return in one run
of the resource factories: handle ids produced by glGenBuffers,
glGenVertexArrays, glCreateShader (for each of the two shaders) and
glCreateProgram, and the boolean compile/link statuses. -/
structure GLEnv where
  genBuffer : Nat
  genVertexArray : Nat
  createVertexShader : Nat
  createFragmentShader : Nat
  vertexCompileOk : Bool
  fragmentCompileOk : Bool
  createProgram : Nat
  linkOk : Bool
deriving DecidableEq

/-- Factory `create_rectangle_buffer` (main.cpp lines 51-83): generates a
buffer id; a zero id throws "buffer generation error" before any `GLobject`
is constructed (no release event); otherwise binds, uploads the constant
rectangle data, unbinds and returns the buffer by value (NRVO: no release
event inside the factory).  Returns the result and the release trace. -/
def create_rectangle_buffer (env : GLEnv) :
    Except String Nat × List ReleaseEvent :=
  if env.genBuffer = 0 then (.error "buffer generation error", [])
  else (.ok env.genBuffer, [])

/-- Factory `create_rectangle_vertex_array_object` (main.cpp lines 85-110):
generates a vertex array object id; a zero id throws "vertex array object
generation error"; otherwise configures the attribute layout and returns the
object by value. -/
def create_rectangle_vertex_array_object (env : GLEnv) :
    Except String Nat × List ReleaseEvent :=
  if env.genVertexArray = 0 then (.error "vertex array object generation error", [])
  else (.ok env.genVertexArray, [])

/-- Factory `create_shader` (main.cpp lines 112-137): `createResult` is what
glCreateShader returns and `compileOk` the GL_COMPILE_STATUS query.  A zero
id throws before the `GLobject` exists; a compile failure throws while the
shader `GLobject` is in scope, so unwinding releases the shader; on success
the shader is returned by value. -/
def create_shader (createResult : Nat) (compileOk : Bool) :
    Except String Nat × List ReleaseEvent :=
  if createResult = 0 then (.error "shader creation error", [])
  else if compileOk then (.ok createResult, [])
  else (.error "shader compilation error", [(Deleter.deleteShader, createResult)])

/-- Factory `create_shader_program` (main.cpp lines 139-170): creates the
program (zero id throws), then the vertex and fragment shaders as local
`GLobject`s scoped to the call, attaches both, links, and throws "failed to
link shader program" on link failure.  Stack unwinding and normal scope exit
destroy the locals in reverse construction order: on a throw from
`create_shader` the already constructed locals are released; on link failure
fragment shader, vertex shader and program are released; on success the
fragment and vertex shaders are released at scope exit and the program is
returned by value. -/
def create_shader_program (env : GLEnv) :
    Except String Nat × List ReleaseEvent :=
  if env.createProgram = 0 then (.error "shader program creation error", [])
  else
    match create_shader env.createVertexShader env.vertexCompileOk with
    | (.error e, tr) => (.error e, tr ++ [(Deleter.deleteProgram, env.createProgram)])
    | (.ok vs, tr₁) =>
      match create_shader env.createFragmentShader env.fragmentCompileOk with
      | (.error e, tr₂) =>
          (.error e, tr₁ ++ tr₂ ++
            [(Deleter.deleteShader, vs), (Deleter.deleteProgram, env.createProgram)])
      | (.ok fs, tr₂) =>
          if env.linkOk then
            (.ok env.createProgram, tr₁ ++ tr₂ ++
              [(Deleter.deleteShader, fs), (Deleter.deleteShader, vs)])
          else
            (.error "failed to link shader program", tr₁ ++ tr₂ ++
              [(Deleter.deleteShader, fs), (Deleter.deleteShader, vs),
               (Deleter.deleteProgram, env.createProgram)])

/-- Claim C3: whenever `create_shader_program` reaches the point where both
intermediate shader objects exist (program id nonzero, both shader ids
nonzero, both compiles succeed), the release functions of the vertex and
fragment shader objects run regardless of whether linking succeeds or
fails; on link failure the error "failed to link shader program" is raised,
the program is also released, and no partial resource escapes. -/
theorem shader_program_releases_intermediates (env : GLEnv)
    (hp : env.createProgram ≠ 0)
    (hv : env.createVertexShader ≠ 0) (hvc : env.vertexCompileOk = true)
    (hf : env.createFragmentShader ≠ 0) (hfc : env.fragmentCompileOk = true) :
    (Deleter.deleteShader, env.createVertexShader) ∈ (create_shader_program env).2 ∧
    (Deleter.deleteShader, env.createFragmentShader) ∈ (create_shader_program env).2 ∧
    (env.linkOk = false →
      (create_shader_program env).1 = .error "failed to link shader program" ∧
      (Deleter.deleteProgram, env.createProgram) ∈ (create_shader_program env).2) ∧
    (env.linkOk = true →
      (create_shader_program env).1 = .ok env.createProgram) := by
  have hvs : create_shader env.createVertexShader env.vertexCompileOk =
      (.ok env.createVertexShader, []) := by
    simp [create_shader, hv, hvc]
  have hfs : create_shader env.createFragmentShader env.fragmentCompileOk =
      (.ok env.createFragmentShader, []) := by
    simp [create_shader, hf, hfc]
  cases hl : env.linkOk <;>
    simp [create_shader_program, hp, hvs, hfs, hl]

/-- Witness for C3 at a concrete environment with a failing link. -/
theorem shader_program_releases_intermediates_witness :
    (Deleter.deleteShader,
      (GLEnv.mk 1 2 3 4 true true 5 false).createVertexShader) ∈
        (create_shader_program (GLEnv.mk 1 2 3 4 true true 5 false)).2 ∧
    (Deleter.deleteShader,
      (GLEnv.mk 1 2 3 4 true true 5 false).createFragmentShader) ∈
        (create_shader_program (GLEnv.mk 1 2 3 4 true true 5 false)).2 ∧
    ((GLEnv.mk 1 2 3 4 true true 5 false).linkOk = false →
      (create_shader_program (GLEnv.mk 1 2 3 4 true true 5 false)).1 =
        .error "failed to link shader program" ∧
      (Deleter.deleteProgram, (GLEnv.mk 1 2 3 4 true true 5 false).createProgram) ∈
        (create_shader_program (GLEnv.mk 1 2 3 4 true true 5 false)).2) ∧
    ((GLEnv.mk 1 2 3 4 true true 5 false).linkOk = true →
      (create_shader_program (GLEnv.mk 1 2 3 4 true true 5 false)).1 =
        .ok (GLEnv.mk 1 2 3 4 true true 5 false).createProgram) :=
  shader_program_releases_intermediates (GLEnv.mk 1 2 3 4 true true 5 false)
    (by decide) (by decide) (by decide) (by decide) (by decide)

/-- Claim C4: every resource factory, on a zero handle from the underlying
allocation call, raises an error carrying its descriptive message (never
returning the zero handle); whenever a factory returns a handle, that
handle is the nonzero allocated one and ownership is transferred: the
factory's own trace never passes the returned handle to its deleter. -/
theorem factories_fail_on_zero_handle (env : GLEnv) (cs : Nat) (co : Bool) :
    (env.genBuffer = 0 →
      (create_rectangle_buffer env).1 = .error "buffer generation error") ∧
    (env.genBuffer ≠ 0 →
      (create_rectangle_buffer env).1 = .ok env.genBuffer) ∧
    (env.genVertexArray = 0 →
      (create_rectangle_vertex_array_object env).1 =
        .error "vertex array object generation error") ∧
    (env.genVertexArray ≠ 0 →
      (create_rectangle_vertex_array_object env).1 = .ok env.genVertexArray) ∧
    (cs = 0 → (create_shader cs co).1 = .error "shader creation error") ∧
    (∀ hdl, (create_shader cs co).1 = .ok hdl →
      hdl = cs ∧ cs ≠ 0 ∧ (Deleter.deleteShader, hdl) ∉ (create_shader cs co).2) ∧
    (env.createProgram = 0 →
      (create_shader_program env).1 = .error "shader program creation error") ∧
    (∀ hdl, (create_shader_program env).1 = .ok hdl →
      hdl = env.createProgram ∧ hdl ≠ 0 ∧
      (Deleter.deleteProgram, hdl) ∉ (create_shader_program env).2) := by
  refine ⟨fun h => by simp [create_rectangle_buffer, h],
          fun h => by simp [create_rectangle_buffer, h],
          fun h => by simp [create_rectangle_vertex_array_object, h],
          fun h => by simp [create_rectangle_vertex_array_object, h],
          fun h => by simp [create_shader, h], ?_, ?_, ?_⟩
  · intro hdl hok
    by_cases h0 : cs = 0
    · simp [create_shader, h0] at hok
    · cases hco : co
      · simp [create_shader, h0, hco] at hok
      · simp [create_shader, h0, hco] at hok ⊢
        omega
  · intro h
    simp [create_shader_program, h]
  · intro hdl hok
    by_cases hp0 : env.createProgram = 0
    · simp [create_shader_program, hp0] at hok
    · by_cases hv0 : env.createVertexShader = 0
      · simp [create_shader_program, create_shader, hp0, hv0] at hok
      · cases hvc : env.vertexCompileOk
        · simp [create_shader_program, create_shader, hp0, hv0, hvc] at hok
        · by_cases hf0 : env.createFragmentShader = 0
          · simp [create_shader_program, create_shader, hp0, hv0, hvc, hf0] at hok
          · cases hfc : env.fragmentCompileOk
            · simp [create_shader_program, create_shader,
                    hp0, hv0, hvc, hf0, hfc] at hok
            · cases hl : env.linkOk
              · simp [create_shader_program, create_shader,
                      hp0, hv0, hvc, hf0, hfc, hl] at hok
              · simp [create_shader_program, create_shader,
                      hp0, hv0, hvc, hf0, hfc, hl] at hok ⊢
                omega

/-- Witness for C4: concrete environments exercising the failing and the
successful allocation paths. -/
theorem factories_fail_on_zero_handle_witness :
    (create_rectangle_buffer (GLEnv.mk 0 2 3 4 true true 5 true)).1 =
      .error "buffer generation error" ∧
    (create_rectangle_buffer (GLEnv.mk 9 2 3 4 true true 5 true)).1 = .ok 9 ∧
    ((5 : Nat) = (GLEnv.mk 9 2 3 4 true true 5 true).createProgram ∧ (5 : Nat) ≠ 0 ∧
      (Deleter.deleteProgram, (5 : Nat)) ∉
        (create_shader_program (GLEnv.mk 9 2 3 4 true true 5 true)).2) :=
  ⟨(factories_fail_on_zero_handle (GLEnv.mk 0 2 3 4 true true 5 true) 0 true).1 rfl,
   (factories_fail_on_zero_handle (GLEnv.mk 9 2 3 4 true true 5 true) 0 true).2.1
     (by decide),
   (factories_fail_on_zero_handle (GLEnv.mk 9 2 3 4 true true 5 true) 0
       true).2.2.2.2.2.2.2 5 rfl⟩

/-- One value per 2^32, the modulus of the C `unsigned` type on the
targeted platforms, used for the `max_iterations` counter. -/
def UINT_MOD : Nat := 2 ^ 32

/-- The SDL scancodes the key-down handler distinguishes
(main.cpp lines 229-244); every other key is `other`. -/
inductive Scancode where
  | w
  | s
  | a
  | d
  | z
  | x
  | r
  | e
  | other
deriving DecidableEq

/-- The view state mutated by the event loop (main.cpp lines 210-212):
`unsigned max_iterations = 30`, `float scale = 1.0F`,
`float x = 0.0F, y = 0.0F`.  The float fields are modelled as exact
rationals; the unsigned field as a natural number below 2^32. -/
structure ViewState where
  max_iterations : Nat
  scale : ℚ
  x : ℚ
  y : ℚ
deriving DecidableEq

/-- Initial view state (main.cpp lines 210-212). -/
def initView : ViewState := ⟨30, 1, 0, 0⟩

/-- The SDL_KEYDOWN handler (main.cpp lines 223-247): `move_delta` is
`0.1F / scale` computed before any branch; then four independent
if/else-if chains over the scancode update y (W/S), x (A/D),
scale (Z/X: plus or minus `0.1F * scale`) and max_iterations
(R: increment, wrapping as `unsigned`; E: decrement only when
positive). -/
def stepKeydown (st : ViewState) (sc : Scancode) : ViewState :=
  let move_delta : ℚ := 0.1 / st.scale
  let st1 := if sc = Scancode.w then { st with y := st.y + move_delta }
             else if sc = Scancode.s then { st with y := st.y - move_delta }
             else st
  let st2 := if sc = Scancode.a then { st1 with x := st1.x - move_delta }
             else if sc = Scancode.d then { st1 with x := st1.x + move_delta }
             else st1
  let st3 := if sc = Scancode.z then { st2 with scale := st2.scale + 0.1 * st2.scale }
             else if sc = Scancode.x then { st2 with scale := st2.scale - 0.1 * st2.scale }
             else st2
  if sc = Scancode.r then
    { st3 with max_iterations := (st3.max_iterations + 1) % UINT_MOD }
  else if sc = Scancode.e then
    (if st3.max_iterations > 0 then
      { st3 with max_iterations := st3.max_iterations - 1 }
     else st3)
  else st3

/-- Claim C5: over every sequence of key-down events the max-iterations
count never becomes negative (it is an unsigned quantity, always at least
0), and pressing the decrease key E when the count is 0 leaves it at 0. -/
theorem max_iterations_never_negative (st : ViewState) (keys : List Scancode)
    (h : st.max_iterations = 0) :
    0 ≤ (keys.foldl stepKeydown st).max_iterations ∧
    (stepKeydown st Scancode.e).max_iterations = 0 := by
  refine ⟨Nat.zero_le _, ?_⟩
  simp [stepKeydown, h]

/-- Witness for C5 at a concrete state with count 0 and a concrete key
sequence. -/
theorem max_iterations_never_negative_witness :
    0 ≤ ((([Scancode.e, Scancode.r, Scancode.e]).foldl stepKeydown
          ⟨0, 1, 0, 0⟩).max_iterations) ∧
    (stepKeydown ⟨0, 1, 0, 0⟩ Scancode.e).max_iterations = 0 :=
  max_iterations_never_negative ⟨0, 1, 0, 0⟩
    [Scancode.e, Scancode.r, Scancode.e] rfl

/-- Claim C6: the input-handling deltas scale inversely with the zoom
level: each pan key changes its offset by exactly 0.1/scale (and touches
nothing else of x and y), and each zoom key changes scale by exactly
0.1 times scale, added for Z (zoom in), subtracted for X (zoom out). -/
theorem view_deltas_scale_inverse (st : ViewState) (h : st.scale ≠ 0) :
    (stepKeydown st Scancode.w).y = st.y + 0.1 / st.scale ∧
    (stepKeydown st Scancode.w).x = st.x ∧
    (stepKeydown st Scancode.s).y = st.y - 0.1 / st.scale ∧
    (stepKeydown st Scancode.s).x = st.x ∧
    (stepKeydown st Scancode.a).x = st.x - 0.1 / st.scale ∧
    (stepKeydown st Scancode.a).y = st.y ∧
    (stepKeydown st Scancode.d).x = st.x + 0.1 / st.scale ∧
    (stepKeydown st Scancode.d).y = st.y ∧
    (stepKeydown st Scancode.z).scale = st.scale + 0.1 * st.scale ∧
    (stepKeydown st Scancode.x).scale = st.scale - 0.1 * st.scale := by
  refine ⟨?_, ?_, ?_, ?_, ?_, ?_, ?_, ?_, ?_, ?_⟩ <;> simp [stepKeydown]

/-- Witness for C6 at a concrete state with nonzero scale. -/
theorem view_deltas_scale_inverse_witness :
    (stepKeydown ⟨30, 2, 3, 4⟩ Scancode.w).y = (4 : ℚ) + 0.1 / 2 ∧
    (stepKeydown ⟨30, 2, 3, 4⟩ Scancode.z).scale = (2 : ℚ) + 0.1 * 2 := by
  have h := view_deltas_scale_inverse ⟨30, 2, 3, 4⟩ (by norm_num)
  exact ⟨h.1, h.2.2.2.2.2.2.2.2.1⟩

/-- Claim C10: the max-iterations counter is updated modulo 2^32 by the
increase key R; at 2^32 - 1 one more press wraps it to 0, strictly below
the value before the press, so repeated increases are not monotone. -/
theorem max_iterations_wraps (st : ViewState)
    (h : st.max_iterations = 2 ^ 32 - 1) :
    (stepKeydown st Scancode.r).max_iterations = 0 ∧
    (stepKeydown st Scancode.r).max_iterations < st.max_iterations ∧
    (∀ st2 : ViewState, (stepKeydown st2 Scancode.r).max_iterations =
      (st2.max_iterations + 1) % 2 ^ 32) := by
  refine ⟨?_, ?_, fun st2 => by simp [stepKeydown, UINT_MOD]⟩ <;>
    simp [stepKeydown, UINT_MOD, h]

/-- Witness for C10 at the concrete wrap point. -/
theorem max_iterations_wraps_witness :
    (stepKeydown ⟨2 ^ 32 - 1, 1, 0, 0⟩ Scancode.r).max_iterations = 0 :=
  (max_iterations_wraps ⟨2 ^ 32 - 1, 1, 0, 0⟩ rfl).1

/-- The horizontal bounds uploaded to uniform location 2
(main.cpp line 257): `(-2.0F / scale + x, 1.0F / scale + x)`. -/
def uniformBoundsX (st : ViewState) : ℚ × ℚ :=
  (-2 / st.scale + st.x, 1 / st.scale + st.x)

/-- The vertical bounds uploaded to uniform location 3
(main.cpp line 258): `(-1.0F / scale + y, 1.0F / scale + y)`. -/
def uniformBoundsY (st : ViewState) : ℚ × ℚ :=
  (-1 / st.scale + st.y, 1 / st.scale + st.y)

/-- Counterexample to claim C7: no bounds computation takes both axes'
offsets from `x`.  The vertical bounds are unchanged when only `x`
changes (so they do not take their offset from `x`), yet change when `y`
changes (they take it from `y`); the horizontal bounds conversely ignore
`y`.  So y-pan is separated from x-pan in the code as it stands. -/
theorem bounds_offsets_counterexample :
    uniformBoundsY ⟨30, 1, 5, 0⟩ = uniformBoundsY ⟨30, 1, 0, 0⟩ ∧
    uniformBoundsY ⟨30, 1, 0, 5⟩ ≠ uniformBoundsY ⟨30, 1, 0, 0⟩ ∧
    uniformBoundsX ⟨30, 1, 0, 5⟩ = uniformBoundsX ⟨30, 1, 0, 0⟩ := by
  refine ⟨rfl, ?_, rfl⟩
  simp [uniformBoundsY]

/-- Claim C7 as amended: each bounds computation uses the single scalar of
its own axis for both the lower and the upper offset — the horizontal
bounds both offset by `x`, the vertical bounds both offset by `y` — and
each axis's bounds are independent of the other axis's scalar. -/
theorem bounds_offsets_axes_separated (st : ViewState) :
    (uniformBoundsX st).1 - st.x = -2 / st.scale ∧
    (uniformBoundsX st).2 - st.x = 1 / st.scale ∧
    (uniformBoundsY st).1 - st.y = -1 / st.scale ∧
    (uniformBoundsY st).2 - st.y = 1 / st.scale ∧
    (∀ q : ℚ, uniformBoundsY { st with x := q } = uniformBoundsY st) ∧
    (∀ q : ℚ, uniformBoundsX { st with y := q } = uniformBoundsX st) := by
  refine ⟨?_, ?_, ?_, ?_, fun q => rfl, fun q => rfl⟩ <;>
    simp [uniformBoundsX, uniformBoundsY]

/-- SDL events as the loop distinguishes them (main.cpp lines 221-251):
key-down with a scancode, quit, or anything else (ignored). -/
inductive SDLEvent where
  | keydown (sc : Scancode)
  | quit
  | other
deriving DecidableEq

/-- Handling of one polled event (the switch at main.cpp lines 221-251):
a key-down updates the view state, a quit event clears the `running`
flag, anything else is ignored. -/
def processEvent (p : Bool × ViewState) (ev : SDLEvent) : Bool × ViewState :=
  match ev with
  | SDLEvent.keydown sc => (p.1, stepKeydown p.2 sc)
  | SDLEvent.quit => (false, p.2)
  | SDLEvent.other => p

/-- Observable actions of one loop iteration, in program order
(main.cpp lines 219-270): polling and handling an event, glUseProgram,
the uniform uploads (window size, both bounds, max iterations), glClear,
the single glDrawArrays call, SDL_GL_SwapWindow, SDL_Delay. -/
inductive Action where
  | pollEvent (ev : SDLEvent)
  | useProgram
  | setUniforms (w hgt : Nat) (bx bnds : ℚ × ℚ) (mi : Nat)
  | clear
  | draw
  | swapWindow
  | delay (ms : Nat)
deriving DecidableEq

/-- Recogniser for the draw-call action. -/
def Action.isDraw : Action → Bool
  | Action.draw => true
  | _ => false

/-- Result of one iteration of the `while (running)` loop: the updated
`running` flag and view state, and the ordered list of observable
actions the iteration performed. -/
structure IterResult where
  running : Bool
  view : ViewState
  actions : List Action
deriving DecidableEq

/-- One iteration of the running loop (main.cpp lines 217-271): the inner
`while (SDL_PollEvent(&event))` drains every pending event through the
switch, then the iteration re-sends the uniforms computed from the updated
view state, clears, draws the 6-vertex rectangle once, swaps buffers and
delays 30 ms.  The render steps run even when a quit event cleared
`running`; the flag is only tested at the top of the next iteration. -/
def iterate (pending : List SDLEvent) (running : Bool) (st : ViewState) :
    IterResult :=
  let p := pending.foldl processEvent (running, st)
  { running := p.1
    view := p.2
    actions := pending.map Action.pollEvent ++
      [Action.useProgram,
       Action.setUniforms WINDOW_WIDTH WINDOW_HEIGHT
         (uniformBoundsX p.2) (uniformBoundsY p.2) p.2.max_iterations,
       Action.clear, Action.draw, Action.swapWindow, Action.delay 30] }

/-- The whole running loop, driven by the batches of events each
iteration's poll drains: the loop stops when a processed quit event
cleared `running` (or when no more batches are supplied, modelling an
unbounded run cut off for observation). -/
def runLoop (st : ViewState) : List (List SDLEvent) → List Action
  | [] => []
  | batch :: rest =>
      let r := iterate batch true st
      r.actions ++ (if r.running then runLoop r.view rest else [])

/-- Once the running flag is false, no processed event sets it back. -/
theorem processEvents_false_stable (l : List SDLEvent) (st : ViewState) :
    (l.foldl processEvent (false, st)).1 = false := by
  induction l generalizing st with
  | nil => rfl
  | cons ev rest ih =>
      cases ev <;> simp [processEvent, ih]

/-- Draining a batch that contains a quit event leaves `running` false. -/
theorem processEvents_quit (l : List SDLEvent) (r : Bool) (st : ViewState)
    (h : SDLEvent.quit ∈ l) :
    (l.foldl processEvent (r, st)).1 = false := by
  induction l generalizing r st with
  | nil => cases h
  | cons ev rest ih =>
      rcases List.mem_cons.mp h with h1 | h2
      · subst h1
        simp [processEvent, processEvents_false_stable]
      · cases ev <;> simp [processEvent, ih _ _ h2]

/-- Claim C8: every iteration of the running loop performs, in strict
sequence, the draining of all pending events (key-downs updating the view
state, a quit event clearing the running flag), then the upload of the
current view parameters, then one clear, exactly one draw call, the buffer
swap presenting the frame, and the fixed 30 ms delay; an iteration whose
batch contains a quit event is the last one the loop runs. -/
theorem loop_iteration_sequence (pending : List SDLEvent) (running : Bool)
    (st : ViewState) (rest : List (List SDLEvent))
    (hq : SDLEvent.quit ∈ pending) :
    (iterate pending running st).actions =
      pending.map Action.pollEvent ++
      [Action.useProgram,
       Action.setUniforms 800 600
         (uniformBoundsX (iterate pending running st).view)
         (uniformBoundsY (iterate pending running st).view)
         (iterate pending running st).view.max_iterations,
       Action.clear, Action.draw, Action.swapWindow, Action.delay 30] ∧
    ((iterate pending running st).actions.filter Action.isDraw).length = 1 ∧
    ((iterate pending running st).running, (iterate pending running st).view) =
      pending.foldl processEvent (running, st) ∧
    (iterate pending running st).running = false ∧
    runLoop st (pending :: rest) = (iterate pending true st).actions := by
  refine ⟨rfl, ?_, rfl, processEvents_quit pending running st hq, ?_⟩
  · have hnd : ∀ ev : SDLEvent, Action.isDraw (Action.pollEvent ev) = false :=
      fun ev => rfl
    simp [iterate, List.filter_append, List.filter_map, Action.isDraw,
          List.filter_eq_nil_iff, hnd]
  · simp [runLoop, processEvents_quit pending true st hq, iterate]

/-- Witness for C8 at a concrete batch holding a key-down and a quit. -/
theorem loop_iteration_sequence_witness :
    ((iterate [SDLEvent.keydown Scancode.r, SDLEvent.quit] true initView).actions.filter
        Action.isDraw).length = 1 ∧
    (iterate [SDLEvent.keydown Scancode.r, SDLEvent.quit] true initView).running = false ∧
    runLoop initView [[SDLEvent.keydown Scancode.r, SDLEvent.quit], [SDLEvent.other]] =
      (iterate [SDLEvent.keydown Scancode.r, SDLEvent.quit] true initView).actions := by
  have h := loop_iteration_sequence [SDLEvent.keydown Scancode.r, SDLEvent.quit]
    true initView [[SDLEvent.other]] (by decide)
  exact ⟨h.2.1, h.2.2.2.1, h.2.2.2.2⟩

/-- Environment of one run of `main`: success of SDL_Init, of window and
GL-context creation, availability of the two shader source files, the
OpenGL allocation results, and the event batches the loop drains. -/
structure SysEnv where
  sdlInitOk : Bool
  windowOk : Bool
  contextOk : Bool
  vsFileOk : Bool
  fsFileOk : Bool
  gl : GLEnv
  batches : List (List SDLEvent)

/-- Loader `read_file` (main.cpp lines 172-179): an unreadable stream
throws "file reading error"; the file contents themselves are opaque to
the host-side logic, so only availability is modelled. -/
def read_file (ok : Bool) : Except String Unit :=
  if ok then .ok () else .error "file reading error"

/-- The try-block of `main` (main.cpp lines 201-272): builds the buffer,
the vertex array object, reads the two shader sources (the two `read_file`
calls are the arguments of `create_shader_program`, evaluated before it
runs; left-to-right order is taken here) and links the program.  The first
thrown error propagates to the catch. -/
def tryInit (env : SysEnv) : Except String Nat := do
  let _buf ← (create_rectangle_buffer env.gl).1
  let _vao ← (create_rectangle_vertex_array_object env.gl).1
  let _ ← read_file env.vsFileOk
  let _ ← read_file env.fsFileOk
  let prog ← (create_shader_program env.gl).1
  pure prog

/-- The function `main` (main.cpp lines 182-294), modelled by its exit
code, the messages written to standard error, and the loop's actions.
Subsystem-init failures are checked inline and reported; any error thrown
inside the try-block is caught at its boundary and its message printed;
every path falls through to `return 0`. -/
def mainResult (env : SysEnv) : Nat × List String × List Action :=
  if env.sdlInitOk then
    if env.windowOk then
      if env.contextOk then
        match tryInit env with
        | .error msg => (0, [msg], [])
        | .ok _ => (0, [], runLoop initView env.batches)
      else (0, ["SDL_GLContext creation error"], [])
    else (0, ["SDL_Window creation error"], [])
  else (0, ["SDL2 initialization error"], [])

/-- Claim C9: the process exit code is 0 for every execution; every
failure — subsystem initialization, resource allocation, file read,
compile or link — produces a message on standard error instead of a
nonzero exit code. -/
theorem exit_code_always_zero (env : SysEnv) :
    (mainResult env).1 = 0 ∧
    (env.sdlInitOk = false → "SDL2 initialization error" ∈ (mainResult env).2.1) ∧
    (env.sdlInitOk = true → env.windowOk = false →
      "SDL_Window creation error" ∈ (mainResult env).2.1) ∧
    (env.sdlInitOk = true → env.windowOk = true → env.contextOk = false →
      "SDL_GLContext creation error" ∈ (mainResult env).2.1) ∧
    (∀ msg, env.sdlInitOk = true → env.windowOk = true → env.contextOk = true →
      tryInit env = .error msg → msg ∈ (mainResult env).2.1) := by
  refine ⟨?_, ?_, ?_, ?_, ?_⟩
  · cases hs : env.sdlInitOk <;> cases hw : env.windowOk <;>
      cases hc : env.contextOk <;>
      simp [mainResult, hs, hw, hc] <;>
      cases ht : tryInit env <;> simp [ht]
  · intro hs
    simp [mainResult, hs]
  · intro hs hw
    simp [mainResult, hs, hw]
  · intro hs hw hc
    simp [mainResult, hs, hw, hc]
  · intro msg hs hw hc ht
    simp [mainResult, hs, hw, hc, ht]

/-- Witness for C9 at a concrete failing environment: SDL up, window up,
context up, but the buffer allocation returns 0, so the thrown message is
caught and printed and the exit code is still 0. -/
theorem exit_code_always_zero_witness :
    (mainResult (SysEnv.mk true true true true true
        (GLEnv.mk 0 2 3 4 true true 5 true) [])).1 = 0 ∧
    "buffer generation error" ∈
      (mainResult (SysEnv.mk true true true true true
        (GLEnv.mk 0 2 3 4 true true 5 true) [])).2.1 := by
  have h := exit_code_always_zero (SysEnv.mk true true true true true
    (GLEnv.mk 0 2 3 4 true true 5 true) [])
  exact ⟨h.1, h.2.2.2.2 "buffer generation error" rfl rfl rfl rfl⟩

end MandelbrotGL
